import Mathlib

/-
Verification of the two utility scripts of the iOSDevOpsAutomation repository:

* `scripts/add_resources_to_project.py` — a regex-based patcher that inserts
  one group entry, one group definition, one file reference, one build-phase
  entry and one build-file record into an Xcode `project.pbxproj` manifest.

* `iOSDevOpsAutomation/Resources/semgrep_standalone.py` — a wrapper that
  locates a system-installed `semgrep` binary, invokes it on a project
  directory, and formats the result.

The Python code is shallowly embedded below.  Regular-expression based text
substitution is embedded through a small executable backtracking matcher
(`RE` / `reMatch` / `searchFrom` / `reSubAux`) implementing the leftmost-match,
greedy-with-backtracking semantics of `re.sub` for the constructs the
scripts actually use (literals, `\s+`, `[^}]+`, capture groups).  Filesystem
and process effects of the scanner script are embedded by explicit state
passing over an environment record (`Env`), with the working directory and
the list of spawned subprocesses threaded through the results.
-/

set_option maxRecDepth 20000

/-! ## A tiny regex engine: the constructs used by the patcher -/

/-- Regular-expression abstract syntax: literal strings, one-or-more
character classes (greedy), sequencing, and capture groups.  These are the
only constructs appearing in the patterns of `add_resources_to_project.py`. -/
inductive RE where
  | lit (cs : List Char)
  | plus (p : Char → Bool)
  | seq (a b : RE)
  | grp (a : RE)

/-- Tail-recursive list length (kept iterative so that kernel evaluation of
the matcher on concrete manifests needs only bounded recursion depth). -/
def listLenAux {α : Type} : Nat → List α → Nat
  | n, [] => n
  | n, _ :: t => listLenAux (n + 1) t

/-- Tail-recursive list length. -/
def listLen {α : Type} (l : List α) : Nat :=
  listLenAux 0 l

/-- Greedy matching of one-or-more characters satisfying `p`, with
backtracking: longer consumptions are preferred, and on failure of the
continuation the match retries with one character fewer. -/
def plusGreedy {α : Type} (p : Char → Bool) : List Char → (List Char → Option α) → Option α
  | [], _ => none
  | c :: rest, k =>
    if p c then
      match plusGreedy p rest k with
      | some res => some res
      | none => k rest
    else none

/-- Backtracking matcher in continuation-passing style.  `reMatch r s gs k` tries
to match `r` at the start of `s` with capture-group accumulator `gs`; on each
candidate match it calls `k` with the remaining input and the extended group
list, preferring greedier alternatives, exactly as Python `re` does for
these constructs. -/
def reMatch {α : Type} : RE → List Char → List (List Char) → (List Char → List (List Char) → Option α) → Option α
  | RE.lit cs, s, gs, k => if cs.isPrefixOf s then k (s.drop cs.length) gs else none
  | RE.plus p, s, gs, k => plusGreedy p s (fun s2 => k s2 gs)
  | RE.seq a b, s, gs, k => reMatch a s gs (fun s2 gs2 => reMatch b s2 gs2 k)
  | RE.grp a, s, gs, k => reMatch a s gs (fun s2 gs2 => k s2 (gs2 ++ [s.take (listLen s - listLen s2)]))

/-- Try to match `r` at the very start of `s`; returns the captured groups
and the rest of the input after the match. -/
def trymatch (r : RE) (s : List Char) : Option (List (List Char) × List Char) :=
  reMatch r s [] (fun rest gs => some (gs, rest))

/-- Tail-recursive worker for `searchFrom`; `preRev` holds, reversed, the
characters already scanned past. -/
def searchAux (r : RE) : List Char → List Char → Option (List Char × List (List Char) × List Char)
  | preRev, [] =>
    match trymatch r [] with
    | some (gs, rest) => some (preRev.reverse, gs, rest)
    | none => none
  | preRev, c :: tail =>
    match trymatch r (c :: tail) with
    | some (gs, rest) => some (preRev.reverse, gs, rest)
    | none => searchAux r (c :: preRev) tail

/-- Leftmost search: scan positions left to right and return, for the first
position where `r` matches, the text before the match, the captured groups,
and the text after the match. -/
def searchFrom (r : RE) (s : List Char) : Option (List Char × List (List Char) × List Char) :=
  searchAux r [] s

/-- Fuelled global substitution: replace every (non-overlapping, leftmost)
match of `r` in the input by `f` applied to its capture groups, continuing
after the replaced span, as `re.sub` does. -/
def reSubAux (r : RE) (f : List (List Char) → List Char) : Nat → List Char → List Char
  | 0, s => s
  | Nat.succ fuel, s =>
    match searchFrom r s with
    | none => s
    | some (pre, gs, rest) => pre ++ f gs ++ reSubAux r f fuel rest

/-- Global substitution (`re.sub` with a pure replacement function). -/
def reSubTop (r : RE) (f : List (List Char) → List Char) (s : List Char) : List Char :=
  reSubAux r f (listLen s + 1) s

/-- Fuelled global substitution with a stateful replacement callback; the
state is a `Nat` counter threaded left to right through the callback calls
(used to model the draw of a fresh uuid inside the build-phase callback). -/
def reSubStAux (r : RE) (f : Nat → List (List Char) → Nat × List Char) : Nat → Nat → List Char → Nat × List Char
  | 0, ctr, s => (ctr, s)
  | Nat.succ fuel, ctr, s =>
    match searchFrom r s with
    | none => (ctr, s)
    | some (pre, gs, rest) =>
      let st := f ctr gs
      let st2 := reSubStAux r f fuel st.1 rest
      (st2.1, pre ++ st.2 ++ st2.2)

/-- Global substitution with a stateful replacement callback. -/
def reSubStTop (r : RE) (f : Nat → List (List Char) → Nat × List Char) (ctr : Nat) (s : List Char) : Nat × List Char :=
  reSubStAux r f (listLen s + 1) ctr s

/-- The effect of a substitution when the pattern matches exactly once:
replace that single match. -/
def subOnce (r : RE) (f : List (List Char) → List Char) (s : List Char) : List Char :=
  match searchFrom r s with
  | none => s
  | some (pre, gs, rest) => pre ++ f gs ++ rest

/-- Stateful analogue of `subOnce`. -/
def subOnceSt (r : RE) (f : Nat → List (List Char) → Nat × List Char) (ctr : Nat) (s : List Char) : Nat × List Char :=
  match searchFrom r s with
  | none => (ctr, s)
  | some (pre, gs, rest) => ((f ctr gs).1, pre ++ (f ctr gs).2 ++ rest)

/-- Decidable check that `r` matches exactly once in `s`: there is a
leftmost match, and no further match after it. -/
def uniqueMatch (r : RE) (s : List Char) : Bool :=
  match searchFrom r s with
  | none => false
  | some (_, _, rest) => (searchFrom r rest).isNone

/-! ## Python string helpers used by the scripts -/

/-- Characters counted as whitespace by Python `\s` and `str.strip()`
(ASCII fragment, which is all the scripts encounter). -/
def pySpace (c : Char) : Bool :=
  c == ' ' || c == '\t' || c == '\n' || c == '\x0d' || c == '\x0b' || c == '\x0c'

/-- Character class `[^\x7d]` (any character except a closing brace). -/
def notBrace (c : Char) : Bool :=
  c != Char.ofNat 125

/-- Substring test (Python `needle in hay`). -/
def containsSub (hay needle : List Char) : Bool :=
  match hay with
  | [] => needle.isPrefixOf []
  | _ :: t => needle.isPrefixOf hay || containsSub t needle

/-- Substring test on `String`s. -/
def containsStr (hay needle : String) : Bool :=
  containsSub hay.data needle.data

/-- Fuelled worker for Python `str.split(sep)` with a non-empty separator. -/
def pySplitAux (sep : List Char) : Nat → List Char → List Char → List (List Char)
  | 0, s, acc => [acc.reverse ++ s]
  | Nat.succ fuel, s, acc =>
    match s with
    | [] => [acc.reverse]
    | c :: rest =>
      if sep.isPrefixOf s then
        acc.reverse :: pySplitAux sep fuel (s.drop sep.length) []
      else
        pySplitAux sep fuel rest (c :: acc)

/-- Python `str.split(sep)`: split on every non-overlapping occurrence of
`sep`, keeping empty segments. -/
def pySplit (sep s : List Char) : List (List Char) :=
  pySplitAux sep (listLen s + 1) s []

/-- Python `list.insert(n, a)`: insert at index `n`, clamping past the end. -/
def insertAt {α : Type} : Nat → α → List α → List α
  | 0, a, l => a :: l
  | _ + 1, a, [] => [a]
  | n + 1, a, x :: xs => x :: insertAt n a xs

/-- Python `sep.join(parts)`. -/
def pyJoin (sep : String) : List String → String
  | [] => ""
  | x :: xs => xs.foldl (fun acc y => acc ++ sep ++ y) x

/-- Python `str.strip()` (ASCII whitespace). -/
def pyStrip (s : String) : String :=
  ⟨((s.data.dropWhile pySpace).reverse.dropWhile pySpace).reverse⟩

/-- Character list of a string literal. -/
def chars (s : String) : List Char :=
  s.data

/-! ## Embedding of `scripts/add_resources_to_project.py` -/

/-- The `main_group_pattern` regex of the patcher:
`(/\* Begin PBXGroup section \*/\s+[^\x7d]+mainGroup = \{[^\x7d]+children = \(\s+)([^\x7d]+)(\s+\);[^\x7d]+\};)`. -/
def mainGroupPat : RE :=
  RE.seq
    (RE.grp (RE.seq (RE.lit (chars "/* Begin PBXGroup section */"))
      (RE.seq (RE.plus pySpace)
        (RE.seq (RE.plus notBrace)
          (RE.seq (RE.lit (chars "mainGroup = \x7b"))
            (RE.seq (RE.plus notBrace)
              (RE.seq (RE.lit (chars "children = ("))
                (RE.plus pySpace))))))))
    (RE.seq
      (RE.grp (RE.plus notBrace))
      (RE.grp (RE.seq (RE.plus pySpace)
        (RE.seq (RE.lit (chars ");"))
          (RE.seq (RE.plus notBrace)
            (RE.lit (chars "\x7d;")))))))

/-- The `resources_build_phase_pattern` regex of the patcher (the build
phase is selected by a hard-coded identifier). -/
def buildPhasePat : RE :=
  RE.seq
    (RE.grp (RE.seq (RE.lit (chars "02DAD4482E70CC2D00BB3786 /* Resources */ = \x7b"))
      (RE.seq (RE.plus notBrace)
        (RE.seq (RE.lit (chars "files = ("))
          (RE.plus pySpace)))))
    (RE.seq
      (RE.grp (RE.plus notBrace))
      (RE.grp (RE.seq (RE.plus pySpace)
        (RE.seq (RE.lit (chars ");"))
          (RE.seq (RE.plus notBrace)
            (RE.lit (chars "\x7d;")))))))

/-- The literal pattern `(/\* End PBXGroup section \*/)`. -/
def endGroupMarkerPat : RE :=
  RE.grp (RE.lit (chars "/* End PBXGroup section */"))

/-- The literal pattern `(/\* End PBXFileReference section \*/)`. -/
def endFileRefMarkerPat : RE :=
  RE.grp (RE.lit (chars "/* End PBXFileReference section */"))

/-- The literal pattern `(/\* End PBXBuildFile section \*/)`. -/
def endBuildFileMarkerPat : RE :=
  RE.grp (RE.lit (chars "/* End PBXBuildFile section */"))

/-- The `resources_entry` line added to the root group children list. -/
def mainGroupEntryText (gid : List Char) : List Char :=
  chars "\t\t\t\t" ++ gid ++ chars " /* Resources */,\n"

/-- The test applied to each children line by `add_resources_to_main_group`:
`'/*' in line and '*/' in line and '/*' in line.split('/*')[1]`. -/
def twoCommentCond (line : List Char) : Bool :=
  containsSub line (chars "/*") && containsSub line (chars "*/") &&
    containsSub ((pySplit (chars "/*") line).getD 1 []) (chars "/*")

/-- The `last_group_line` loop: index of the last line satisfying
`twoCommentCond`, or `-1` if none does. -/
def lastCondIdx (lines : List (List Char)) : Int :=
  (lines.foldl
    (fun (st : Int × Nat) line =>
      (if twoCommentCond line then (Int.ofNat st.2, st.2 + 1) else (st.1, st.2 + 1)))
    (-1, 0)).1

/-- The replacement callback `add_resources_to_main_group` of the patcher:
insert the new Resources entry after the last heuristically-recognized
member line of the children list, or append it. -/
def add_resources_to_main_group (gid : List Char) (gs : List (List Char)) : List Char :=
  let pre1 := gs.getD 0 []
  let children := gs.getD 1 []
  let suf1 := gs.getD 2 []
  let entry := mainGroupEntryText gid
  let lines := pySplit (chars "\n") children
  let lastIdx := lastCondIdx lines
  let lines2 := if 0 ≤ lastIdx then insertAt (lastIdx.toNat + 1) entry lines else lines ++ [entry]
  pre1 ++ List.intercalate (chars "\n") lines2 ++ suf1

/-- The `resources_group_def` block (f-string of the patcher). -/
def resourcesGroupDefText (gid fid : List Char) : List Char :=
  chars "\n\t\t" ++ gid ++
    chars " /* Resources */ = \x7b\n\t\t\tisa = PBXGroup;\n\t\t\tchildren = (\n\t\t\t\t" ++
    fid ++
    chars " /* semgrep */,\n\t\t\t);\n\t\t\tpath = Resources;\n\t\t\tsourceTree = \"<group>\";\n\t\t\x7d;"

/-- The `semgrep_file_ref` block (f-string of the patcher). -/
def fileRefText (fid : List Char) : List Char :=
  chars "\n\t\t" ++ fid ++
    chars " /* semgrep */ = \x7b\n\t\t\tisa = PBXFileReference;\n\t\t\tlastKnownFileType = text.script.python;\n\t\t\tpath = semgrep;\n\t\t\tsourceTree = \"<group>\";\n\t\t\x7d;"

/-- The `semgrep_entry` line appended to the Resources build-phase files
list. -/
def phaseEntryText (bfid : List Char) : List Char :=
  chars "\t\t\t\t" ++ bfid ++ chars " /* semgrep in Resources */,\n"

/-- The replacement callback `add_semgrep_to_resources` of the patcher:
append a build-file membership entry (with identifier `bfid`, freshly drawn
inside the callback) to the files list of the matched build phase. -/
def add_semgrep_to_resources (bfid : List Char) (gs : List (List Char)) : List Char :=
  let pre1 := gs.getD 0 []
  let files := gs.getD 1 []
  let suf1 := gs.getD 2 []
  let filesLines := pySplit (chars "\n") files ++ [phaseEntryText bfid]
  pre1 ++ List.intercalate (chars "\n") filesLines ++ suf1

/-- The `semgrep_build_file_ref` block (f-string of the patcher). -/
def buildFileRecordText (bfid fid : List Char) : List Char :=
  chars "\n\t\t" ++ bfid ++
    chars " /* semgrep in Resources */ = \x7b\n\t\t\tisa = PBXBuildFile;\n\t\t\tfileRef = " ++
    fid ++ chars " /* semgrep */;\n\t\t\x7d;"

/-- Replacement text of the second substitution (group definition plus the
re-instated end marker, as produced by the `re.sub` replacement template). -/
def groupInsertText (gid fid : List Char) : List Char :=
  resourcesGroupDefText gid fid ++ chars "\n\n\t\t/* End PBXGroup section */"

/-- Replacement text of the third substitution. -/
def fileRefInsertText (fid : List Char) : List Char :=
  fileRefText fid ++ chars "\n\n\t\t/* End PBXFileReference section */"

/-- Replacement text of the fifth substitution. -/
def buildFileInsertText (bfid fid : List Char) : List Char :=
  buildFileRecordText bfid fid ++ chars "\n\n\t\t/* End PBXBuildFile section */"

/-- The whole text transformation performed by one run of
`add_resources_to_project` on the manifest text.  `supply` is the stream of
fresh 24-character identifiers produced by the successive
`str(uuid.uuid4()).replace('-', '').upper()[:24]` draws, in order of
evaluation: `supply 0` is `resources_group_id`, `supply 1` is
`semgrep_file_id`, then one draw per invocation of the build-phase callback
starting at index 2, then the final `semgrep_build_file_id`. -/
def patchContent (supply : Nat → List Char) (content : List Char) : List Char :=
  let resources_group_id := supply 0
  let semgrep_file_id := supply 1
  let c1 := reSubTop mainGroupPat (add_resources_to_main_group resources_group_id) content
  let c2 := reSubTop endGroupMarkerPat
    (fun _ => groupInsertText resources_group_id semgrep_file_id) c1
  let c3 := reSubTop endFileRefMarkerPat
    (fun _ => fileRefInsertText semgrep_file_id) c2
  let c4p := reSubStTop buildPhasePat
    (fun n gs => (n + 1, add_semgrep_to_resources (supply n) gs)) 2 c3
  let semgrep_build_file_id := supply c4p.1
  let c5 := reSubTop endBuildFileMarkerPat
    (fun _ => buildFileInsertText semgrep_build_file_id semgrep_file_id) c4p.2
  c5

/-- The filesystem as seen by the patcher: the (optional) content of
`iOSDevOpsAutomation.xcodeproj/project.pbxproj`; `none` means the file does
not exist. -/
structure PatchFS where
  manifest : Option (List Char)

/-- The `add_resources_to_project` entry point: returns `False` without
touching the filesystem when the project file is missing, otherwise rewrites
the file with the patched content and returns `True`. -/
def add_resources_to_project (supply : Nat → List Char) (fs : PatchFS) : Bool × PatchFS :=
  match fs.manifest with
  | none => (false, fs)
  | some content => (true, ⟨some (patchContent supply content)⟩)

/-! ## Soundness of the matcher: a reported match decomposes the input -/

/-- Characterization of the text consumed by a pattern together with the
capture groups it appends: literals consume themselves and capture nothing,
classes capture nothing, sequences concatenate, and a group appends its own
consumed text after the groups of its body. -/
def groupsSpec : RE → List Char → List (List Char) → Prop
  | RE.lit cs, c, gs => c = cs ∧ gs = []
  | RE.plus _, _, gs => gs = []
  | RE.seq a b, c, gs =>
    ∃ c1 c2 g1 g2, c = c1 ++ c2 ∧ gs = g1 ++ g2 ∧ groupsSpec a c1 g1 ∧ groupsSpec b c2 g2
  | RE.grp a, c, gs => ∃ g, groupsSpec a c g ∧ gs = g ++ [c]

/-- Patterns containing no capture group. -/
def noGrp : RE → Prop
  | RE.lit _ => True
  | RE.plus _ => True
  | RE.seq a b => noGrp a ∧ noGrp b
  | RE.grp _ => False

theorem noGrp_groupsSpec {r : RE} {c : List Char} {g : List (List Char)}
    (hr : noGrp r) (h : groupsSpec r c g) : g = [] := by
  induction r generalizing c g with
  | lit cs => exact h.2
  | plus p => exact h
  | seq a b iha ihb =>
    obtain ⟨c1, c2, g1, g2, _, hg, ha, hb⟩ := h
    rw [hg, iha hr.1 ha, ihb hr.2 hb]
    rfl
  | grp a ih => exact absurd hr (by simp [noGrp])

theorem listLenAux_eq {α : Type} (l : List α) : ∀ n, listLenAux n l = n + l.length := by
  induction l with
  | nil => intro n; simp [listLenAux]
  | cons c t ih => intro n; simp [listLenAux, ih]; omega

theorem listLen_eq {α : Type} (l : List α) : listLen l = l.length := by
  simp [listLen, listLenAux_eq]

theorem plusGreedy_sound {α : Type} {p : Char → Bool} :
    ∀ {s : List Char} {k : List Char → Option α} {res : α},
      plusGreedy p s k = some res →
      ∃ c s2, s = c ++ s2 ∧ c ≠ [] ∧ k s2 = some res := by
  intro s
  induction s with
  | nil => intro k res h; simp [plusGreedy] at h
  | cons c rest ih =>
    intro k res h
    by_cases hp : p c
    · rw [plusGreedy, if_pos hp] at h
      cases hrec : plusGreedy p rest k with
      | some r2 =>
        rw [hrec] at h
        obtain ⟨c2, s2, hs, hne, hk⟩ := ih hrec
        exact ⟨c :: c2, s2, by simp [hs], by simp, by simp [← h, hk]⟩
      | none =>
        rw [hrec] at h
        exact ⟨[c], rest, rfl, by simp, h⟩
    · rw [plusGreedy, if_neg hp] at h
      exact absurd h (by simp)

theorem reMatch_sound {α : Type} :
    ∀ (r : RE) {s : List Char} {gs : List (List Char)}
      {k : List Char → List (List Char) → Option α} {res : α},
      reMatch r s gs k = some res →
      ∃ c s2 g, s = c ++ s2 ∧ groupsSpec r c g ∧ k s2 (gs ++ g) = some res := by
  intro r
  induction r with
  | lit cs =>
    intro s gs k res h
    rw [reMatch] at h
    by_cases hp : cs.isPrefixOf s
    · rw [if_pos hp] at h
      obtain ⟨t, ht⟩ := List.isPrefixOf_iff_prefix.mp hp
      refine ⟨cs, t, [], ht.symm, ⟨rfl, rfl⟩, ?_⟩
      rw [List.append_nil]
      rw [← ht, List.drop_left] at h
      exact h
    · rw [if_neg hp] at h; exact absurd h (by simp)
  | plus p =>
    intro s gs k res h
    rw [reMatch] at h
    obtain ⟨c, s2, hs, hne, hk⟩ := plusGreedy_sound h
    exact ⟨c, s2, [], hs, rfl, by rw [List.append_nil]; exact hk⟩
  | seq a b iha ihb =>
    intro s gs k res h
    rw [reMatch] at h
    obtain ⟨c1, s1, g1, hs1, hspec1, hk1⟩ := iha h
    obtain ⟨c2, s2, g2, hs2, hspec2, hk2⟩ := ihb hk1
    refine ⟨c1 ++ c2, s2, g1 ++ g2, ?_, ⟨c1, c2, g1, g2, rfl, rfl, hspec1, hspec2⟩, ?_⟩
    · rw [hs1, hs2, List.append_assoc]
    · rw [← List.append_assoc]; exact hk2
  | grp a ih =>
    intro s gs k res h
    rw [reMatch] at h
    obtain ⟨c, s2, g, hs, hspec, hk⟩ := ih h
    refine ⟨c, s2, g ++ [c], hs, ⟨g, hspec, rfl⟩, ?_⟩
    have hlen : listLen s - listLen s2 = c.length := by
      rw [listLen_eq, listLen_eq, hs, List.length_append]
      omega
    rw [hlen, hs, List.take_left] at hk
    rw [← List.append_assoc]
    exact hk

theorem trymatch_sound {r : RE} {s : List Char} {gs : List (List Char)} {rest : List Char}
    (h : trymatch r s = some (gs, rest)) :
    ∃ mid, s = mid ++ rest ∧ groupsSpec r mid gs := by
  obtain ⟨c, s2, g, hs, hspec, hk⟩ := reMatch_sound r h
  simp only [List.nil_append, Option.some.injEq, Prod.mk.injEq] at hk
  exact ⟨c, by rw [hs, hk.2], by rw [← hk.1]; exact hspec⟩

theorem searchAux_sound {r : RE} :
    ∀ {s preRev pre : List Char} {gs : List (List Char)} {rest : List Char},
      searchAux r preRev s = some (pre, gs, rest) →
      ∃ pre2 mid, pre = preRev.reverse ++ pre2 ∧ s = pre2 ++ mid ++ rest ∧ groupsSpec r mid gs := by
  intro s
  induction s with
  | nil =>
    intro preRev pre gs rest h
    rw [searchAux] at h
    cases htm : trymatch r [] with
    | some v =>
      obtain ⟨gs0, rest0⟩ := v
      rw [htm] at h
      simp only [Option.some.injEq, Prod.mk.injEq] at h
      obtain ⟨mid, hmid, hspec⟩ := trymatch_sound htm
      refine ⟨[], mid, ?_, ?_, ?_⟩
      · rw [← h.1, List.append_nil]
      · rw [List.nil_append, ← h.2.2]; exact hmid
      · rw [← h.2.1]; exact hspec
    | none => rw [htm] at h; exact absurd h (by simp)
  | cons c tail ih =>
    intro preRev pre gs rest h
    rw [searchAux] at h
    cases htm : trymatch r (c :: tail) with
    | some v =>
      obtain ⟨gs0, rest0⟩ := v
      rw [htm] at h
      simp only [Option.some.injEq, Prod.mk.injEq] at h
      obtain ⟨mid, hmid, hspec⟩ := trymatch_sound htm
      refine ⟨[], mid, ?_, ?_, ?_⟩
      · rw [← h.1, List.append_nil]
      · rw [List.nil_append, ← h.2.2]; exact hmid
      · rw [← h.2.1]; exact hspec
    | none =>
      rw [htm] at h
      obtain ⟨pre2, mid, hpre, htail, hspec⟩ := ih h
      refine ⟨c :: pre2, mid, ?_, ?_, hspec⟩
      · rw [hpre]; simp
      · rw [htail]; rfl

theorem searchFrom_sound {r : RE} {s pre : List Char} {gs : List (List Char)} {rest : List Char}
    (h : searchFrom r s = some (pre, gs, rest)) :
    ∃ mid, s = pre ++ mid ++ rest ∧ groupsSpec r mid gs := by
  obtain ⟨pre2, mid, hpre, hs, hspec⟩ := searchAux_sound h
  simp only [List.reverse_nil, List.nil_append] at hpre
  exact ⟨mid, by rw [hpre]; exact hs, hspec⟩

/-- A literal one-group pattern (the three end-of-section markers) matches
exactly the literal: the input splits around one occurrence of the marker,
which is also the single captured group. -/
theorem marker_decomp {mk s pre : List Char} {gs : List (List Char)} {rest : List Char}
    (h : searchFrom (RE.grp (RE.lit mk)) s = some (pre, gs, rest)) :
    s = pre ++ mk ++ rest ∧ gs = [mk] := by
  obtain ⟨mid, hs, hspec⟩ := searchFrom_sound h
  obtain ⟨g, hg, hgs⟩ := hspec
  obtain ⟨hmid, hgnil⟩ := hg
  constructor
  · rw [hs, hmid]
  · rw [hgs, hgnil, hmid]; rfl

/-- A three-group sequential pattern (the main-group pattern and the
build-phase pattern) decomposes the input around the three captured groups,
in order. -/
theorem seq3_decomp {a b c3 : RE} (hna : noGrp a) (hnb : noGrp b) (hnc : noGrp c3)
    {s pre : List Char} {gs : List (List Char)} {rest : List Char}
    (h : searchFrom (RE.seq (RE.grp a) (RE.seq (RE.grp b) (RE.grp c3))) s = some (pre, gs, rest)) :
    ∃ x y z, s = pre ++ (x ++ (y ++ z)) ++ rest ∧ gs = [x, y, z] := by
  obtain ⟨mid, hs, hspec⟩ := searchFrom_sound h
  obtain ⟨c1, c2, g1, g2, hc, hg, ha, hbc⟩ := hspec
  obtain ⟨ga, hga, hg1⟩ := ha
  obtain ⟨c21, c22, g21, g22, hc2, hg2, hb, hcc⟩ := hbc
  obtain ⟨gb, hgb, hg21⟩ := hb
  obtain ⟨gc, hgc, hg22⟩ := hcc
  have hga0 : ga = [] := noGrp_groupsSpec hna hga
  have hgb0 : gb = [] := noGrp_groupsSpec hnb hgb
  have hgc0 : gc = [] := noGrp_groupsSpec hnc hgc
  refine ⟨c1, c21, c22, ?_, ?_⟩
  · rw [hs, hc, hc2]
  · rw [hg, hg1, hg2, hg21, hg22, hga0, hgb0, hgc0]; rfl

/-- When the pattern does not occur, substitution is the identity,
whatever the fuel. -/
theorem reSubAux_of_none {r : RE} {f : List (List Char) → List Char} {s : List Char}
    (h : searchFrom r s = none) : ∀ n, reSubAux r f n s = s := by
  intro n
  cases n with
  | zero => rfl
  | succ m => simp [reSubAux, h]

/-- When the pattern does not occur, `re.sub` leaves the text unchanged. -/
theorem reSubTop_of_none {r : RE} {f : List (List Char) → List Char} {s : List Char}
    (h : searchFrom r s = none) : reSubTop r f s = s :=
  reSubAux_of_none h _

/-- A `uniqueMatch` yields the leftmost match and the absence of any later
match. -/
theorem uniqueMatch_some {r : RE} {s : List Char} (h : uniqueMatch r s = true) :
    ∃ pre gs rest, searchFrom r s = some (pre, gs, rest) ∧ searchFrom r rest = none := by
  unfold uniqueMatch at h
  cases hs : searchFrom r s with
  | none => rw [hs] at h; exact absurd h (by simp)
  | some v =>
    obtain ⟨pre, gs, rest⟩ := v
    rw [hs] at h
    exact ⟨pre, gs, rest, rfl, Option.isNone_iff_eq_none.mp h⟩

/-- When the pattern matches exactly once, `re.sub` replaces that single
match. -/
theorem reSubTop_of_uniqueMatch {r : RE} {f : List (List Char) → List Char} {s : List Char}
    (h : uniqueMatch r s = true) : reSubTop r f s = subOnce r f s := by
  obtain ⟨pre, gs, rest, hs, hrest⟩ := uniqueMatch_some h
  show reSubAux r f (Nat.succ (listLen s)) s = subOnce r f s
  rw [reSubAux, subOnce, hs]
  show pre ++ f gs ++ reSubAux r f (listLen s) rest = pre ++ f gs ++ rest
  rw [reSubAux_of_none hrest]

/-- Stateful variant of `reSubAux_of_none`. -/
theorem reSubStAux_of_none {r : RE} {f : Nat → List (List Char) → Nat × List Char} {s : List Char}
    (h : searchFrom r s = none) : ∀ n ctr, reSubStAux r f n ctr s = (ctr, s) := by
  intro n ctr
  cases n with
  | zero => rfl
  | succ m => simp [reSubStAux, h]

/-- Stateful variant of `reSubTop_of_uniqueMatch`. -/
theorem reSubStTop_of_uniqueMatch {r : RE} {f : Nat → List (List Char) → Nat × List Char}
    {ctr : Nat} {s : List Char} (h : uniqueMatch r s = true) :
    reSubStTop r f ctr s = subOnceSt r f ctr s := by
  obtain ⟨pre, gs, rest, hs, hrest⟩ := uniqueMatch_some h
  show reSubStAux r f (Nat.succ (listLen s)) ctr s = subOnceSt r f ctr s
  rw [reSubStAux, subOnceSt, hs]
  show ((reSubStAux r f (listLen s) (f ctr gs).1 rest).1,
      pre ++ (f ctr gs).2 ++ (reSubStAux r f (listLen s) (f ctr gs).1 rest).2) =
    ((f ctr gs).1, pre ++ (f ctr gs).2 ++ rest)
  rw [reSubStAux_of_none hrest]

/-! ## The five substitutions of one patcher run, staged -/

/-- Text after the first substitution (root-group children) of a run with
identifier stream `supply`, assuming each pattern matches exactly once. -/
def pStage1 (supply : Nat → List Char) (m : List Char) : List Char :=
  subOnce mainGroupPat (add_resources_to_main_group (supply 0)) m

/-- Text after the second substitution (group definition). -/
def pStage2 (supply : Nat → List Char) (m : List Char) : List Char :=
  subOnce endGroupMarkerPat (fun _ => groupInsertText (supply 0) (supply 1)) (pStage1 supply m)

/-- Text after the third substitution (file reference). -/
def pStage3 (supply : Nat → List Char) (m : List Char) : List Char :=
  subOnce endFileRefMarkerPat (fun _ => fileRefInsertText (supply 1)) (pStage2 supply m)

/-- Text after the fourth substitution (build-phase files list). -/
def pStage4 (supply : Nat → List Char) (m : List Char) : List Char :=
  subOnce buildPhasePat (add_semgrep_to_resources (supply 2)) (pStage3 supply m)

/-- Text after the fifth substitution (build-file record); the final output
of a run in which each pattern matches exactly once. -/
def pStage5 (supply : Nat → List Char) (m : List Char) : List Char :=
  subOnce endBuildFileMarkerPat (fun _ => buildFileInsertText (supply 3) (supply 1)) (pStage4 supply m)

theorem insertAt_length {α : Type} (a : α) :
    ∀ (n : Nat) (l : List α), (insertAt n a l).length = l.length + 1 := by
  intro n
  induction n with
  | zero => intro l; rfl
  | succ k ih =>
    intro l
    cases l with
    | nil => rfl
    | cons x xs => simp [insertAt, ih]

theorem append_singleton_eq_insertAt {α : Type} (a : α) :
    ∀ l : List α, l ++ [a] = insertAt l.length a l := by
  intro l
  induction l with
  | nil => rfl
  | cons x xs ih => simp [insertAt, ih]

/-- Shape of the main-group callback on a three-group match: the children
text is split into lines, exactly one new `Resources` entry line is inserted
at some position, and the lines are rejoined between the unchanged first and
third groups. -/
theorem add_resources_cb_shape (gid x y z : List Char) :
    ∃ i, add_resources_to_main_group gid [x, y, z] =
      x ++ List.intercalate (chars "\n")
        (insertAt i (mainGroupEntryText gid) (pySplit (chars "\n") y)) ++ z := by
  unfold add_resources_to_main_group
  by_cases h : 0 ≤ lastCondIdx (pySplit (chars "\n") y)
  · exact ⟨(lastCondIdx (pySplit (chars "\n") y)).toNat + 1, by simp [h, List.getD]⟩
  · refine ⟨(pySplit (chars "\n") y).length, ?_⟩
    simp [h, List.getD, append_singleton_eq_insertAt]

/-- Shape of the build-phase callback on a three-group match: exactly one
new membership entry is appended to the files list. -/
theorem add_semgrep_cb_shape (bfid x y z : List Char) :
    add_semgrep_to_resources bfid [x, y, z] =
      x ++ List.intercalate (chars "\n")
        (pySplit (chars "\n") y ++ [phaseEntryText bfid]) ++ z := by
  simp [add_semgrep_to_resources, List.getD]

/-- One run of the patcher on a manifest in which each of the five patterns
matches exactly once equals the five single substitutions in sequence, with
identifier draws `supply 0` (group), `supply 1` (file), `supply 2`
(build-phase entry, drawn inside the callback) and `supply 3` (build-file
record). -/
theorem patchContent_eq_pStage5 (supply : Nat → List Char) (m : List Char)
    (h1 : uniqueMatch mainGroupPat m = true)
    (h2 : uniqueMatch endGroupMarkerPat (pStage1 supply m) = true)
    (h3 : uniqueMatch endFileRefMarkerPat (pStage2 supply m) = true)
    (h4 : uniqueMatch buildPhasePat (pStage3 supply m) = true)
    (h5 : uniqueMatch endBuildFileMarkerPat (pStage4 supply m) = true) :
    patchContent supply m = pStage5 supply m := by
  have e1 : reSubTop mainGroupPat (add_resources_to_main_group (supply 0)) m = pStage1 supply m :=
    reSubTop_of_uniqueMatch h1
  have e2 : reSubTop endGroupMarkerPat (fun _ => groupInsertText (supply 0) (supply 1))
      (pStage1 supply m) = pStage2 supply m :=
    reSubTop_of_uniqueMatch h2
  have e3 : reSubTop endFileRefMarkerPat (fun _ => fileRefInsertText (supply 1))
      (pStage2 supply m) = pStage3 supply m :=
    reSubTop_of_uniqueMatch h3
  have e4 : reSubStTop buildPhasePat
      (fun n gs => (n + 1, add_semgrep_to_resources (supply n) gs)) 2
      (pStage3 supply m) = (3, pStage4 supply m) := by
    rw [reSubStTop_of_uniqueMatch h4]
    obtain ⟨pre, gs, rest, hs, _⟩ := uniqueMatch_some h4
    rw [subOnceSt, hs, pStage4, subOnce, hs]
  have e5 : reSubTop endBuildFileMarkerPat
      (fun _ => buildFileInsertText (supply 3) (supply 1))
      (pStage4 supply m) = pStage5 supply m :=
    reSubTop_of_uniqueMatch h5
  show reSubTop endBuildFileMarkerPat
      (fun _ => buildFileInsertText
        (supply (reSubStTop buildPhasePat
          (fun n gs => (n + 1, add_semgrep_to_resources (supply n) gs)) 2
          (reSubTop endFileRefMarkerPat (fun _ => fileRefInsertText (supply 1))
            (reSubTop endGroupMarkerPat (fun _ => groupInsertText (supply 0) (supply 1))
              (reSubTop mainGroupPat (add_resources_to_main_group (supply 0)) m)))).1)
        (supply 1))
      (reSubStTop buildPhasePat
        (fun n gs => (n + 1, add_semgrep_to_resources (supply n) gs)) 2
        (reSubTop endFileRefMarkerPat (fun _ => fileRefInsertText (supply 1))
          (reSubTop endGroupMarkerPat (fun _ => groupInsertText (supply 0) (supply 1))
            (reSubTop mainGroupPat (add_resources_to_main_group (supply 0)) m)))).2
    = pStage5 supply m
  rw [e1, e2, e3, e4]
  exact e5

/-- The five single-insertion decompositions performed by one patcher run
with identifier stream `supply` on manifest `m`: each conjunct exhibits the
text before and after one substitution, showing that exactly one new entry
is inserted at the matched place and that the surrounding text is unchanged.
The five places are: root-group children list, group-definitions section,
file-reference section, resources build-phase files list, and build-file
section. -/
def InsertionsSpec (supply : Nat → List Char) (m : List Char) : Prop :=
  (∃ pre x y z rest i,
      m = pre ++ (x ++ (y ++ z)) ++ rest ∧
      pStage1 supply m =
        pre ++ (x ++ List.intercalate (chars "\n")
          (insertAt i (mainGroupEntryText (supply 0)) (pySplit (chars "\n") y)) ++ z) ++ rest) ∧
  (∃ pre rest,
      pStage1 supply m = pre ++ chars "/* End PBXGroup section */" ++ rest ∧
      pStage2 supply m = pre ++ groupInsertText (supply 0) (supply 1) ++ rest) ∧
  (∃ pre rest,
      pStage2 supply m = pre ++ chars "/* End PBXFileReference section */" ++ rest ∧
      pStage3 supply m = pre ++ fileRefInsertText (supply 1) ++ rest) ∧
  (∃ pre x y z rest,
      pStage3 supply m = pre ++ (x ++ (y ++ z)) ++ rest ∧
      pStage4 supply m =
        pre ++ (x ++ List.intercalate (chars "\n")
          (pySplit (chars "\n") y ++ [phaseEntryText (supply 2)]) ++ z) ++ rest) ∧
  (∃ pre rest,
      pStage4 supply m = pre ++ chars "/* End PBXBuildFile section */" ++ rest ∧
      pStage5 supply m = pre ++ buildFileInsertText (supply 3) (supply 1) ++ rest)

theorem insertionsSpec_of_unique (supply : Nat → List Char) (m : List Char)
    (h1 : uniqueMatch mainGroupPat m = true)
    (h2 : uniqueMatch endGroupMarkerPat (pStage1 supply m) = true)
    (h3 : uniqueMatch endFileRefMarkerPat (pStage2 supply m) = true)
    (h4 : uniqueMatch buildPhasePat (pStage3 supply m) = true)
    (h5 : uniqueMatch endBuildFileMarkerPat (pStage4 supply m) = true) :
    InsertionsSpec supply m := by
  refine ⟨?_, ?_, ?_, ?_, ?_⟩
  · obtain ⟨pre, gs, rest, hs, _⟩ := uniqueMatch_some h1
    obtain ⟨x, y, z, hm, hgs⟩ :=
      seq3_decomp (by simp [noGrp]) (by simp [noGrp]) (by simp [noGrp]) hs
    obtain ⟨i, hcb⟩ := add_resources_cb_shape (supply 0) x y z
    refine ⟨pre, x, y, z, rest, i, hm, ?_⟩
    rw [pStage1, subOnce, hs, hgs]
    show pre ++ add_resources_to_main_group (supply 0) [x, y, z] ++ rest = _
    rw [hcb]
  · obtain ⟨pre, gs, rest, hs, _⟩ := uniqueMatch_some h2
    obtain ⟨hm, _⟩ := marker_decomp hs
    exact ⟨pre, rest, hm, by rw [pStage2, subOnce, hs]⟩
  · obtain ⟨pre, gs, rest, hs, _⟩ := uniqueMatch_some h3
    obtain ⟨hm, _⟩ := marker_decomp hs
    exact ⟨pre, rest, hm, by rw [pStage3, subOnce, hs]⟩
  · obtain ⟨pre, gs, rest, hs, _⟩ := uniqueMatch_some h4
    obtain ⟨x, y, z, hm, hgs⟩ :=
      seq3_decomp (by simp [noGrp]) (by simp [noGrp]) (by simp [noGrp]) hs
    refine ⟨pre, x, y, z, rest, hm, ?_⟩
    rw [pStage4, subOnce, hs, hgs]
    show pre ++ add_semgrep_to_resources (supply 2) [x, y, z] ++ rest = _
    rw [add_semgrep_cb_shape]
  · obtain ⟨pre, gs, rest, hs, _⟩ := uniqueMatch_some h5
    obtain ⟨hm, _⟩ := marker_decomp hs
    exact ⟨pre, rest, hm, by rw [pStage5, subOnce, hs]⟩

/-! ## The patcher run without uniqueness assumptions, staged -/

/-- Intermediate text of an actual run after the first `re.sub`. -/
def rawStage1 (supply : Nat → List Char) (m : List Char) : List Char :=
  reSubTop mainGroupPat (add_resources_to_main_group (supply 0)) m

/-- Intermediate text of an actual run after the second `re.sub`. -/
def rawStage2 (supply : Nat → List Char) (m : List Char) : List Char :=
  reSubTop endGroupMarkerPat (fun _ => groupInsertText (supply 0) (supply 1)) (rawStage1 supply m)

/-- Intermediate text of an actual run after the third `re.sub`. -/
def rawStage3 (supply : Nat → List Char) (m : List Char) : List Char :=
  reSubTop endFileRefMarkerPat (fun _ => fileRefInsertText (supply 1)) (rawStage2 supply m)

/-- Counter and text of an actual run after the fourth (stateful) `re.sub`. -/
def rawStage4 (supply : Nat → List Char) (m : List Char) : Nat × List Char :=
  reSubStTop buildPhasePat (fun n gs => (n + 1, add_semgrep_to_resources (supply n) gs)) 2
    (rawStage3 supply m)

theorem patchContent_eq_raw (supply : Nat → List Char) (m : List Char) :
    patchContent supply m =
      reSubTop endBuildFileMarkerPat
        (fun _ => buildFileInsertText (supply (rawStage4 supply m).1) (supply 1))
        (rawStage4 supply m).2 := rfl

/-- Cancelling a common central context in a list equation. -/
theorem appendMidCancel {p b1 b2 t : List Char} (h : p ++ (b1 ++ t) = p ++ (b2 ++ t)) :
    b1 = b2 :=
  List.append_cancel_right (List.append_cancel_left h)

theorem phaseEntryText_injOn {b1 b2 : List Char} (h : phaseEntryText b1 = phaseEntryText b2) :
    b1 = b2 := by
  unfold phaseEntryText at h
  rw [List.append_assoc, List.append_assoc] at h
  exact appendMidCancel h

theorem buildFileRecordText_injOn {b1 b2 fid : List Char}
    (h : buildFileRecordText b1 fid = buildFileRecordText b2 fid) : b1 = b2 := by
  unfold buildFileRecordText at h
  exact List.append_cancel_left
    (List.append_cancel_right (List.append_cancel_right (List.append_cancel_right h)))

/-! ## Concrete witness inputs for the patcher claims -/

/-- A minimal manifest with the standard shape assumed by the patcher: the
four marker sections, an inline root `mainGroup` children list, and the
hard-coded-identifier Resources build phase. -/
def wManifest : List Char := chars "/* Begin PBXBuildFile section */\n/* End PBXBuildFile section */\n\n/* Begin PBXFileReference section */\n/* End PBXFileReference section */\n\n/* Begin PBXGroup section */\n\t\tA1 mainGroup = \x7b\n\t\t\tchildren = (\n\t\t\t\tB2 /* App */,\n\t\t\t);\n\t\t\ts = x;\n\t\t\x7d;\n/* End PBXGroup section */\n\n02DAD4482E70CC2D00BB3786 /* Resources */ = \x7b\n\t\t\tfiles = (\n\t\t\t\tC3 /* f */,\n\t\t\t);\n\t\t\tr = y;\n\t\t\x7d;\n"

/-- A concrete identifier stream for the first run. -/
def wSupplyA : Nat → List Char
  | 0 => chars "0000AAAA0000AAAA0000AAAA"
  | 1 => chars "1111BBBB1111BBBB1111BBBB"
  | 2 => chars "2222CCCC2222CCCC2222CCCC"
  | 3 => chars "3333DDDD3333DDDD3333DDDD"
  | _ + 4 => chars "EEEE0000EEEE0000EEEE0000"

/-- A concrete identifier stream for the second run. -/
def wSupplyB : Nat → List Char
  | 0 => chars "4444FFFF4444FFFF4444FFFF"
  | 1 => chars "5555GGGG5555GGGG5555GGGG"
  | 2 => chars "6666HHHH6666HHHH6666HHHH"
  | 3 => chars "7777JJJJ7777JJJJ7777JJJJ"
  | _ + 4 => chars "EEEE0000EEEE0000EEEE0000"

/-- A manifest whose shape differs from the assumed one: it has the end
markers but no inline `mainGroup` children block, so the first pattern
cannot match. -/
def wManifestNoMain : List Char := chars "/* End PBXBuildFile section */\n/* End PBXFileReference section */\n/* Begin PBXGroup section */\n/* End PBXGroup section */\n02DAD4482E70CC2D00BB3786 /* Resources */ = \x7b\n\t\t\tfiles = (\n\t\t\t\tC3 /* f */,\n\t\t\t);\n\t\t\tr = y;\n\t\t\x7d;\n"

/-! ## Claims about the manifest patcher -/

/-- C2: on every manifest in which each of the patcher's five patterns
matches exactly once (the four required marker sections plus the inline root
children list, each present once in the assumed shape), one run of
`add_resources_to_project` performs exactly one insertion in each of the
five places — root-group children, group definitions, file references,
resources build-phase file list, build-file records — leaving all other
text unchanged; and a second run on the output performs one further
insertion in each of the five places, so the operation is not idempotent. -/
theorem C2_patcher_five_single_insertions_and_rerun_inserts_again
    (m : List Char) (supply supply2 : Nat → List Char)
    (h1 : uniqueMatch mainGroupPat m = true)
    (h2 : uniqueMatch endGroupMarkerPat (pStage1 supply m) = true)
    (h3 : uniqueMatch endFileRefMarkerPat (pStage2 supply m) = true)
    (h4 : uniqueMatch buildPhasePat (pStage3 supply m) = true)
    (h5 : uniqueMatch endBuildFileMarkerPat (pStage4 supply m) = true)
    (g1 : uniqueMatch mainGroupPat (pStage5 supply m) = true)
    (g2 : uniqueMatch endGroupMarkerPat (pStage1 supply2 (pStage5 supply m)) = true)
    (g3 : uniqueMatch endFileRefMarkerPat (pStage2 supply2 (pStage5 supply m)) = true)
    (g4 : uniqueMatch buildPhasePat (pStage3 supply2 (pStage5 supply m)) = true)
    (g5 : uniqueMatch endBuildFileMarkerPat (pStage4 supply2 (pStage5 supply m)) = true) :
    patchContent supply m = pStage5 supply m ∧
    patchContent supply2 (patchContent supply m) = pStage5 supply2 (pStage5 supply m) ∧
    InsertionsSpec supply m ∧
    InsertionsSpec supply2 (pStage5 supply m) := by
  have e1 := patchContent_eq_pStage5 supply m h1 h2 h3 h4 h5
  have e2 := patchContent_eq_pStage5 supply2 (pStage5 supply m) g1 g2 g3 g4 g5
  exact ⟨e1, by rw [e1]; exact e2,
    insertionsSpec_of_unique supply m h1 h2 h3 h4 h5,
    insertionsSpec_of_unique supply2 (pStage5 supply m) g1 g2 g3 g4 g5⟩

set_option maxHeartbeats 8000000 in
/-- Witness for C2: the concrete manifest `wManifest` with the identifier
streams `wSupplyA` (first run) and `wSupplyB` (second run). -/
theorem C2_patcher_witness :
    patchContent wSupplyA wManifest = pStage5 wSupplyA wManifest ∧
    patchContent wSupplyB (patchContent wSupplyA wManifest) =
      pStage5 wSupplyB (pStage5 wSupplyA wManifest) ∧
    InsertionsSpec wSupplyA wManifest ∧
    InsertionsSpec wSupplyB (pStage5 wSupplyA wManifest) :=
  C2_patcher_five_single_insertions_and_rerun_inserts_again wManifest wSupplyA wSupplyB
    (by decide) (by decide) (by decide) (by decide) (by decide)
    (by decide) (by decide) (by decide) (by decide) (by decide)

/-- C3: in every run of `add_resources_to_project` in which the hard-coded
Resources build-phase block matches exactly once and the `End PBXBuildFile`
marker matches exactly once afterwards, the identifier appended to the
build-phase files list is the draw `supply 2` and the identifier keying the
single inserted `PBXBuildFile` record is the independent draw `supply 3`;
when the two drawn tokens are distinct, the inserted build-phase entry
references an identifier for which no build-file record is inserted (the
inserted record is keyed by the other identifier), so the entry dangles. -/
theorem C3_buildphase_entry_dangles
    (m : List Char) (supply : Nat → List Char)
    (h4 : uniqueMatch buildPhasePat (rawStage3 supply m) = true)
    (h5 : uniqueMatch endBuildFileMarkerPat (rawStage4 supply m).2 = true) :
    ∃ pre4 x y z rest4 pre5 rest5,
      rawStage3 supply m = pre4 ++ (x ++ (y ++ z)) ++ rest4 ∧
      (rawStage4 supply m).2 =
        pre4 ++ (x ++ List.intercalate (chars "\n")
          (pySplit (chars "\n") y ++ [phaseEntryText (supply 2)]) ++ z) ++ rest4 ∧
      (rawStage4 supply m).1 = 3 ∧
      (rawStage4 supply m).2 = pre5 ++ chars "/* End PBXBuildFile section */" ++ rest5 ∧
      patchContent supply m = pre5 ++ buildFileInsertText (supply 3) (supply 1) ++ rest5 ∧
      (supply 2 ≠ supply 3 →
        phaseEntryText (supply 2) ≠ phaseEntryText (supply 3) ∧
        buildFileRecordText (supply 2) (supply 1) ≠ buildFileRecordText (supply 3) (supply 1)) := by
  obtain ⟨pre4, gs, rest4, hs4, _⟩ := uniqueMatch_some h4
  obtain ⟨x, y, z, hm4, hgs⟩ :=
    seq3_decomp (by simp [noGrp]) (by simp [noGrp]) (by simp [noGrp]) hs4
  have e4 : rawStage4 supply m =
      (3, pre4 ++ add_semgrep_to_resources (supply 2) [x, y, z] ++ rest4) := by
    rw [rawStage4, reSubStTop_of_uniqueMatch h4, subOnceSt, hs4, hgs]
  obtain ⟨pre5, gs5, rest5, hs5, _⟩ := uniqueMatch_some h5
  obtain ⟨hm5, _⟩ := marker_decomp hs5
  refine ⟨pre4, x, y, z, rest4, pre5, rest5, hm4, ?_, ?_, hm5, ?_, ?_⟩
  · rw [e4]
    show pre4 ++ add_semgrep_to_resources (supply 2) [x, y, z] ++ rest4 = _
    rw [add_semgrep_cb_shape]
  · rw [e4]
  · have h41 : (rawStage4 supply m).1 = 3 := by rw [e4]
    rw [patchContent_eq_raw, h41, reSubTop_of_uniqueMatch h5, subOnce, hs5]
  · intro hne
    exact ⟨fun h => hne (phaseEntryText_injOn h),
      fun h => hne (buildFileRecordText_injOn h)⟩

set_option maxHeartbeats 8000000 in
/-- Witness for C3 at the concrete manifest `wManifest` with the identifier
stream `wSupplyA` (whose draws 2 and 3 are distinct). -/
theorem C3_buildphase_witness :
    ∃ pre4 x y z rest4 pre5 rest5,
      rawStage3 wSupplyA wManifest = pre4 ++ (x ++ (y ++ z)) ++ rest4 ∧
      (rawStage4 wSupplyA wManifest).2 =
        pre4 ++ (x ++ List.intercalate (chars "\n")
          (pySplit (chars "\n") y ++ [phaseEntryText (wSupplyA 2)]) ++ z) ++ rest4 ∧
      (rawStage4 wSupplyA wManifest).1 = 3 ∧
      (rawStage4 wSupplyA wManifest).2 =
        pre5 ++ chars "/* End PBXBuildFile section */" ++ rest5 ∧
      patchContent wSupplyA wManifest =
        pre5 ++ buildFileInsertText (wSupplyA 3) (wSupplyA 1) ++ rest5 ∧
      (wSupplyA 2 ≠ wSupplyA 3 →
        phaseEntryText (wSupplyA 2) ≠ phaseEntryText (wSupplyA 3) ∧
        buildFileRecordText (wSupplyA 2) (wSupplyA 1) ≠
          buildFileRecordText (wSupplyA 3) (wSupplyA 1)) :=
  C3_buildphase_entry_dangles wManifest wSupplyA (by decide) (by decide)

/-- C4: when the manifest file exists but one of the patterns (here the
main-group pattern, whose shape assumption is the strongest) fails to match,
the corresponding substitution leaves the text unchanged, no error is
raised, the run still completes returning `True`, the remaining
substitutions are applied to the unchanged text, and the file is written —
so partial application is possible. -/
theorem C4_pattern_mismatch_is_silent_noop
    (supply : Nat → List Char) (m : List Char) (fs : PatchFS)
    (hfs : fs.manifest = some m)
    (hnm : searchFrom mainGroupPat m = none) :
    rawStage1 supply m = m ∧
    rawStage2 supply m =
      reSubTop endGroupMarkerPat (fun _ => groupInsertText (supply 0) (supply 1)) m ∧
    add_resources_to_project supply fs = (true, ⟨some (patchContent supply m)⟩) := by
  have e1 : rawStage1 supply m = m := reSubTop_of_none hnm
  refine ⟨e1, by rw [rawStage2, e1], ?_⟩
  rw [add_resources_to_project, hfs]

set_option maxHeartbeats 800000 in
/-- Witness for C4: a concrete manifest with the marker sections but no
inline `mainGroup` children block. -/
theorem C4_pattern_mismatch_witness :
    rawStage1 wSupplyA wManifestNoMain = wManifestNoMain ∧
    rawStage2 wSupplyA wManifestNoMain =
      reSubTop endGroupMarkerPat (fun _ => groupInsertText (wSupplyA 0) (wSupplyA 1))
        wManifestNoMain ∧
    add_resources_to_project wSupplyA ⟨some wManifestNoMain⟩ =
      (true, ⟨some (patchContent wSupplyA wManifestNoMain)⟩) :=
  C4_pattern_mismatch_is_silent_noop wSupplyA wManifestNoMain ⟨some wManifestNoMain⟩
    rfl (by decide)

/-- C5: when the manifest file does not exist, `add_resources_to_project`
returns `False` early, performs no write, and leaves the filesystem
unchanged. -/
theorem C5_missing_manifest_returns_false_no_write
    (supply : Nat → List Char) (fs : PatchFS) (h : fs.manifest = none) :
    add_resources_to_project supply fs = (false, fs) := by
  rw [add_resources_to_project, h]

/-- Witness for C5: the filesystem with no project file. -/
theorem C5_missing_manifest_witness :
    add_resources_to_project wSupplyA ⟨none⟩ = (false, ⟨none⟩) :=
  C5_missing_manifest_returns_false_no_write wSupplyA ⟨none⟩ rfl

/-! ## Embedding of `iOSDevOpsAutomation/Resources/semgrep_standalone.py` -/

/-- Outcome of a `subprocess.run` invocation: normal completion with exit
code, stdout and stderr; a `TimeoutExpired`; or another raised fault with
its textual description. -/
inductive RunOutcome where
  | completed (rc : Int) (out err : String)
  | timedOut
  | raised (msg : String)

/-- The host environment as the script observes it: file-existence and
executability tests, the home directory, the behaviour of subprocess
invocations (as a function of command and timeout bound), whether `os.chdir`
of a path raises (`some msg`) or succeeds (`none`), the text read from
`os.popen('date')`, the command-line arguments, the current working
directory at entry, and `os.path.exists`. -/
structure Env where
  isfile : String → Bool
  isexec : String → Bool
  home : String
  runProc : List String → Nat → RunOutcome
  chdirFail : String → Option String
  popenDate : String
  argv : List String
  cwd : String
  pathExists : String → Bool

/-- The fixed candidate list of `find_system_semgrep` (with `~` expanded
against the environment's home directory). -/
def possible_paths (env : Env) : List String :=
  ["/opt/homebrew/bin/semgrep", "/usr/local/bin/semgrep",
   env.home ++ "/.local/bin/semgrep", "/usr/bin/semgrep"]

/-- The `find_system_semgrep` lookup: first candidate path that is a file
and executable; otherwise a `which semgrep` subprocess (5 second bound)
whose stripped stdout is accepted under the same file-and-executable check;
`none` when everything fails (exceptions from `which` are swallowed).  Also
returns the list of subprocess invocations made. -/
def find_system_semgrep (env : Env) : Option String × List (List String) :=
  match (possible_paths env).find? (fun p => env.isfile p && env.isexec p) with
  | some p => (some p, [])
  | none =>
    match env.runProc ["which", "semgrep"] 5 with
    | RunOutcome.completed rc out _ =>
      if rc == 0 && pyStrip out != "" then
        if env.isfile (pyStrip out) && env.isexec (pyStrip out) then
          (some (pyStrip out), [["which", "semgrep"]])
        else (none, [["which", "semgrep"]])
      else (none, [["which", "semgrep"]])
    | RunOutcome.timedOut => (none, [["which", "semgrep"]])
    | RunOutcome.raised _ => (none, [["which", "semgrep"]])

/-- The result dictionary of `run_semgrep_scan`; `error = none` models the
absence of the `error` key. -/
structure ScanResult where
  success : Bool
  output : String
  command : Option String
  error : Option String
  return_code : Option Int

/-- The text of `get_installation_instructions`, with the `date` and
`project_path` placeholders filled exactly as the script does. -/
def get_installation_instructions (env : Env) : String :=
  "\n🔍 Semgrep Security Scanner Analysis Report\n==========================================\n\nGenerated on: "
    ++ pyStrip env.popenDate
    ++ "\nProject directory: "
    ++ (if 1 < env.argv.length then env.argv.getD 1 "" else env.cwd)
    ++ "\n\nTo use Semgrep security scanning, please install Semgrep on your system:\n\nOption 1 - Using pip:\n  pip install semgrep\n\nOption 2 - Using Homebrew:\n  brew install semgrep\n\nOption 3 - Using conda:\n  conda install -c conda-forge semgrep\n\nAfter installation, you can run security scans on your iOS projects.\n\nFor more information, visit: https://semgrep.dev/docs/getting-started/\n\nNote: This app provides a convenient interface for Semgrep scanning.\n      The actual security analysis is performed by Semgrep itself.\n\nTo run a comprehensive security scan manually, use:\n  # JSON output for programmatic processing:\n  semgrep scan --config p/swift --config p/owasp-top-ten --config p/secrets --json --verbose . > semgrep_results.json\n\n  # Human-readable output:\n  semgrep scan --config p/swift --config p/owasp-top-ten --config p/secrets --verbose . > semgrep_results.txt\n\n  # This will scan all files in the current directory with:\n    - Swift-specific security rules\n    - OWASP Top 10 security vulnerabilities\n    - Secret detection (API keys, passwords, etc.)\n    - Git-tracked files only (recommended for performance)\n\n❌ Semgrep not found or not executable.\nPlease install Semgrep or ensure it\x27s in your PATH.\n"

/-- The default rule packs of `run_semgrep_scan`. -/
def defaultConfigs : List String :=
  ["p/swift", "p/owasp-top-ten", "p/secrets"]

/-- The wall-clock bound (seconds) passed to `subprocess.run` for the scan. -/
def scan_timeout : Nat := 300

/-- The scan command line built by `run_semgrep_scan`. -/
def buildCmd (semgrep_path : String) (configs : List String) (project_path : String) : List String :=
  [semgrep_path, "scan"] ++ configs.map (fun c => "--config=" ++ c) ++
    ["--json", "--verbose", project_path]

/-- Result of `run_semgrep_scan` together with the working directory of the
process after the call and the subprocess invocations made. -/
structure ScanOutcome where
  res : ScanResult
  cwdAfter : String
  calls : List (List String)

/-- The `run_semgrep_scan` function.  Note the exit paths and their effect
on the working directory, exactly as in the script: on normal completion
the directory is restored (`os.chdir(original_cwd)` is executed); on
`TimeoutExpired` and on any other fault the `except` handler returns
without restoring, leaving the process in `project_path`; when `os.chdir`
itself raises, the directory was never changed. -/
def run_semgrep_scan (env : Env) (project_path : String) (configs0 : Option (List String)) : ScanOutcome :=
  let configs := configs0.getD defaultConfigs
  let fr := find_system_semgrep env
  match fr.1 with
  | none =>
    ⟨⟨false, get_installation_instructions env, none, some "Semgrep not found", none⟩,
      env.cwd, fr.2 ++ [["date"]]⟩
  | some semgrep_path =>
    let cmd := buildCmd semgrep_path configs project_path
    match env.chdirFail project_path with
    | some msg =>
      ⟨⟨false, "Error running Semgrep: " ++ msg, some (pyJoin " " cmd), some msg, none⟩,
        env.cwd, fr.2⟩
    | none =>
      match env.runProc cmd scan_timeout with
      | RunOutcome.completed rc out err =>
        ⟨⟨rc == 0, out ++ err, some (pyJoin " " cmd), none, some rc⟩,
          env.cwd, fr.2 ++ [cmd]⟩
      | RunOutcome.timedOut =>
        ⟨⟨false, "Semgrep scan timed out after 5 minutes", some (pyJoin " " cmd),
            some "Scan timed out", none⟩,
          project_path, fr.2 ++ [cmd]⟩
      | RunOutcome.raised msg =>
        ⟨⟨false, "Error running Semgrep: " ++ msg, some (pyJoin " " cmd), some msg, none⟩,
          project_path, fr.2 ++ [cmd]⟩

/-- The 50-character separator line printed at the end of the report
(written as a replicate so the equals signs are not spelled out). -/
def sepLine : String := String.mk (List.replicate 50 (Char.ofNat 61))

/-- The body of `main` after the argument and existence checks: banner,
scan, report, and summary; always falls off the end, so the process exit
status is `0`.  Returns (exit status, printed lines, subprocess calls). -/
def mainBody (env : Env) : Nat × List String × List (List String) :=
  let project_path := env.argv.getD 1 ""
  let so := run_semgrep_scan env project_path none
  let r := so.res
  let head := ["🔍 Running Semgrep Security Scan", "================================", "",
    "Project: " ++ project_path, "Generated: " ++ pyStrip env.popenDate, "",
    "📋 Command Output:", "-----------------"]
  let cmdLines := match r.command with
    | some c => if c != "" then ["Command: " ++ c, ""] else []
    | none => []
  let verdict :=
    if r.success then
      ["", "✅ Scan completed successfully"] ++
        (if containsStr r.output "\"results\": [" then
          ["⚠️ Security issues found!"]
        else
          ["🎉 No security issues found!"])
    else
      ["", "❌ Scan failed or found issues"] ++
        (match r.error with
         | some e =>
           if e == "Semgrep not found" then
             ["Reason: Semgrep is not installed or not in PATH",
              "Please install Semgrep using one of the methods shown above."]
           else []
         | none => [])
  let footer := ["", sepLine,
    "End of Semgrep Scan Report", sepLine]
  (0, head ++ cmdLines ++ [r.output] ++ verdict ++ footer, [["date"]] ++ so.calls)

/-- The `main` function: usage check, target-path existence check (exit 1
on failure, before any subprocess), then the body. -/
def main_run (env : Env) : Nat × List String × List (List String) :=
  if env.argv.length < 2 then
    (1, ["Usage: python3 semgrep_standalone.py <project_path>"], [])
  else if env.pathExists (env.argv.getD 1 "") = false then
    (1, ["❌ Project path does not exist: " ++ env.argv.getD 1 ""], [])
  else
    mainBody env

/-! ## Helper lemmas for the scanner claims -/

theorem isPrefixOf_self (l : List Char) : l.isPrefixOf l = true :=
  List.isPrefixOf_iff_prefix.mpr (List.prefix_refl l)

theorem containsSub_self (l : List Char) : containsSub l l = true := by
  cases l with
  | nil => rfl
  | cons c t => simp [containsSub, isPrefixOf_self]

theorem containsStr_self (s : String) : containsStr s s = true :=
  containsSub_self s.data

theorem foldl_join_length_le (sep : String) :
    ∀ (l : List String) (acc : String),
      acc.length ≤ (l.foldl (fun x y => x ++ sep ++ y) acc).length := by
  intro l
  induction l with
  | nil => intro acc; exact Nat.le_refl _
  | cons y ys ih =>
    intro acc
    refine Nat.le_trans ?_ (ih (acc ++ sep ++ y))
    rw [String.length_append, String.length_append]
    omega

theorem pyJoin_ne_empty (a b : String) (l : List String) :
    pyJoin " " (a :: b :: l) ≠ "" := by
  intro h
  have h1 : pyJoin " " (a :: b :: l) = l.foldl (fun x y => x ++ " " ++ y) (a ++ " " ++ b) := by
    simp [pyJoin]
  have h2 := foldl_join_length_le " " l (a ++ " " ++ b)
  rw [← h1, h] at h2
  rw [String.length_append, String.length_append] at h2
  have h3 : ("" : String).length = 0 := rfl
  have h4 : (" " : String).length = 1 := rfl
  omega

/-- No candidate path passes the file-and-executable check. -/
def noCandidate (env : Env) : Bool :=
  (possible_paths env).all (fun p => !(env.isfile p && env.isexec p))

/-- The `which semgrep` lookup fails to produce a usable path: the call
raises or times out, or its exit code is nonzero, or its stripped stdout is
empty, or the reported path fails the file-and-executable check. -/
def whichLookupFails (env : Env) : Bool :=
  match env.runProc ["which", "semgrep"] 5 with
  | RunOutcome.completed rc out _ =>
    if rc == 0 && pyStrip out != "" then
      !(env.isfile (pyStrip out) && env.isexec (pyStrip out))
    else true
  | RunOutcome.timedOut => true
  | RunOutcome.raised _ => true

theorem find_none_of_fails {env : Env}
    (h1 : noCandidate env = true) (h2 : whichLookupFails env = true) :
    (find_system_semgrep env).1 = none := by
  have hf : (possible_paths env).find? (fun p => env.isfile p && env.isexec p) = none := by
    rw [List.find?_eq_none]
    intro x hx
    have hax : (!(env.isfile x && env.isexec x)) = true := (List.all_eq_true.mp h1) x hx
    have hfalse : (env.isfile x && env.isexec x) = false := by
      cases hb : (env.isfile x && env.isexec x) <;> simp_all
    simp [hfalse]
  unfold find_system_semgrep
  rw [hf]
  unfold whichLookupFails at h2
  cases hr : env.runProc ["which", "semgrep"] 5 with
  | completed rc out err =>
    rw [hr] at h2
    cases hcond : (rc == 0 && pyStrip out != "") with
    | false => simp [hcond]
    | true =>
      simp only [hcond] at h2
      simp at h2
      rcases h2 with h2 | h2 <;> simp [hcond, h2]
  | timedOut => simp
  | raised msg => simp

/-! ## Concrete environments for the scanner claims -/

/-- An environment in which semgrep is installed at the first candidate
path, `os.chdir` succeeds, and the scan subprocess times out. -/
def envTimeout : Env :=
  { isfile := fun p => p == "/opt/homebrew/bin/semgrep",
    isexec := fun p => p == "/opt/homebrew/bin/semgrep",
    home := "/Users/dev",
    runProc := fun _ _ => RunOutcome.timedOut,
    chdirFail := fun _ => none,
    popenDate := "Mon Jan 1",
    argv := ["semgrep_standalone.py", "/projects/app"],
    cwd := "/original/cwd",
    pathExists := fun _ => true }

/-- Like `envTimeout`, but the scan subprocess completes with exit code 0,
stdout `OUT` and stderr `ERR`. -/
def envOk : Env :=
  { envTimeout with runProc := fun _ _ => RunOutcome.completed 0 "OUT" "ERR" }

/-- An environment in which no semgrep executable can be found: every
candidate fails the checks and the `which` lookup raises. -/
def envNotFound : Env :=
  { isfile := fun _ => false,
    isexec := fun _ => false,
    home := "/Users/dev",
    runProc := fun _ _ => RunOutcome.raised "which not available",
    chdirFail := fun _ => none,
    popenDate := "Mon Jan 1",
    argv := ["semgrep_standalone.py", "/projects/app"],
    cwd := "/original/cwd",
    pathExists := fun _ => true }

/-- Like `envTimeout`, but the scan completes cleanly with a JSON results
array in its stdout. -/
def envFound : Env :=
  { isfile := fun p => p == "/opt/homebrew/bin/semgrep",
    isexec := fun p => p == "/opt/homebrew/bin/semgrep",
    home := "/Users/dev",
    runProc := fun _ _ => RunOutcome.completed 0 "\x7b \"results\": [ ] \x7d" "",
    chdirFail := fun _ => none,
    popenDate := "Tue Jan 2",
    argv := ["semgrep_standalone.py", "/projects/app"],
    cwd := "/original/cwd",
    pathExists := fun _ => true }

/-- Like `envTimeout`, but the target path does not exist. -/
def envMissing : Env :=
  { envTimeout with pathExists := fun p => p != "/projects/app" }

/-! ## Claims about the scanner -/

/-- C1: evaluation of `run_semgrep_scan` at an environment where the
executable is located and the invocation times out shows that the working
directory after the call is the project path, not the pre-invocation
directory: the `except` handlers return without executing the restoring
`os.chdir(original_cwd)` (there is no `finally`), so the directory-restore
invariant claimed for every exit path fails on the timeout path (it does
hold on normal completion, last conjunct). -/
theorem C1_cwd_not_restored_on_timeout :
    (run_semgrep_scan envTimeout "/projects/app" none).cwdAfter = "/projects/app" ∧
    envTimeout.cwd = "/original/cwd" ∧
    (run_semgrep_scan envTimeout "/projects/app" none).cwdAfter ≠ envTimeout.cwd ∧
    (run_semgrep_scan envTimeout "/projects/app" none).res.success = false ∧
    (run_semgrep_scan envTimeout "/projects/app" none).res.error = some "Scan timed out" ∧
    (run_semgrep_scan envOk "/projects/app" none).cwdAfter = envOk.cwd := by
  decide

/-- C6: whenever no candidate executable path passes the
existence-and-executable check and the PATH lookup also fails, the scan
returns success `false` and its output field is (hence contains) the
installation-instructions text. -/
theorem C6_not_found_reports_instructions (env : Env) (project_path : String)
    (configs0 : Option (List String))
    (h1 : noCandidate env = true) (h2 : whichLookupFails env = true) :
    (run_semgrep_scan env project_path configs0).res.success = false ∧
    (run_semgrep_scan env project_path configs0).res.output
      = get_installation_instructions env ∧
    containsStr (run_semgrep_scan env project_path configs0).res.output
      (get_installation_instructions env) = true ∧
    (run_semgrep_scan env project_path configs0).res.error = some "Semgrep not found" := by
  have hf := find_none_of_fails h1 h2
  have hrun : run_semgrep_scan env project_path configs0 =
      ⟨⟨false, get_installation_instructions env, none, some "Semgrep not found", none⟩,
        env.cwd, (find_system_semgrep env).2 ++ [["date"]]⟩ := by
    simp only [run_semgrep_scan, hf]
  refine ⟨by rw [hrun], by rw [hrun], ?_, by rw [hrun]⟩
  rw [hrun]
  exact containsStr_self _

/-- Witness for C6: the environment `envNotFound`. -/
theorem C6_not_found_witness :
    (run_semgrep_scan envNotFound "/projects/app" none).res.success = false ∧
    (run_semgrep_scan envNotFound "/projects/app" none).res.output
      = get_installation_instructions envNotFound ∧
    containsStr (run_semgrep_scan envNotFound "/projects/app" none).res.output
      (get_installation_instructions envNotFound) = true ∧
    (run_semgrep_scan envNotFound "/projects/app" none).res.error
      = some "Semgrep not found" :=
  C6_not_found_reports_instructions envNotFound "/projects/app" none (by decide) (by decide)

/-- C7: the external invocation is bounded by `scan_timeout = 300` seconds,
and when it times out the function returns (rather than raises) a failure
result with the fixed timeout message in its output field and the command
string it attempted. -/
theorem C7_timeout_returns_failure_result (env : Env) (project_path sp : String)
    (configs0 : Option (List String))
    (hfind : (find_system_semgrep env).1 = some sp)
    (hchdir : env.chdirFail project_path = none)
    (hrun : env.runProc (buildCmd sp (configs0.getD defaultConfigs) project_path) scan_timeout
      = RunOutcome.timedOut) :
    scan_timeout = 300 ∧
    (run_semgrep_scan env project_path configs0).res.success = false ∧
    (run_semgrep_scan env project_path configs0).res.output
      = "Semgrep scan timed out after 5 minutes" ∧
    (run_semgrep_scan env project_path configs0).res.error = some "Scan timed out" ∧
    (run_semgrep_scan env project_path configs0).res.command
      = some (pyJoin " " (buildCmd sp (configs0.getD defaultConfigs) project_path)) := by
  have hrun' : run_semgrep_scan env project_path configs0 =
      ⟨⟨false, "Semgrep scan timed out after 5 minutes",
          some (pyJoin " " (buildCmd sp (configs0.getD defaultConfigs) project_path)),
          some "Scan timed out", none⟩,
        project_path,
        (find_system_semgrep env).2 ++ [buildCmd sp (configs0.getD defaultConfigs) project_path]⟩ := by
    simp only [run_semgrep_scan, hfind, hchdir, hrun]
  exact ⟨rfl, by rw [hrun'], by rw [hrun'], by rw [hrun'], by rw [hrun']⟩

/-- Witness for C7: the environment `envTimeout`. -/
theorem C7_timeout_witness :
    scan_timeout = 300 ∧
    (run_semgrep_scan envTimeout "/projects/app" none).res.success = false ∧
    (run_semgrep_scan envTimeout "/projects/app" none).res.output
      = "Semgrep scan timed out after 5 minutes" ∧
    (run_semgrep_scan envTimeout "/projects/app" none).res.error = some "Scan timed out" ∧
    (run_semgrep_scan envTimeout "/projects/app" none).res.command
      = some (pyJoin " " (buildCmd "/opt/homebrew/bin/semgrep"
          ((none : Option (List String)).getD defaultConfigs) "/projects/app")) :=
  C7_timeout_returns_failure_result envTimeout "/projects/app" "/opt/homebrew/bin/semgrep"
    none (by decide) rfl rfl

/-- C8: when the external process completes within the timeout, the result
captures combined stdout plus stderr, the literal command string, the exit
code, and success exactly when the exit code is zero; the working directory
is restored on this path. -/
theorem C8_completed_result_fields (env : Env) (project_path sp out err : String) (rc : Int)
    (configs0 : Option (List String))
    (hfind : (find_system_semgrep env).1 = some sp)
    (hchdir : env.chdirFail project_path = none)
    (hrun : env.runProc (buildCmd sp (configs0.getD defaultConfigs) project_path) scan_timeout
      = RunOutcome.completed rc out err) :
    (run_semgrep_scan env project_path configs0).res.output = out ++ err ∧
    (run_semgrep_scan env project_path configs0).res.command
      = some (pyJoin " " (buildCmd sp (configs0.getD defaultConfigs) project_path)) ∧
    (run_semgrep_scan env project_path configs0).res.return_code = some rc ∧
    ((run_semgrep_scan env project_path configs0).res.success = true ↔ rc = 0) ∧
    (run_semgrep_scan env project_path configs0).cwdAfter = env.cwd := by
  have hrun' : run_semgrep_scan env project_path configs0 =
      ⟨⟨rc == 0, out ++ err,
          some (pyJoin " " (buildCmd sp (configs0.getD defaultConfigs) project_path)),
          none, some rc⟩,
        env.cwd,
        (find_system_semgrep env).2 ++ [buildCmd sp (configs0.getD defaultConfigs) project_path]⟩ := by
    simp only [run_semgrep_scan, hfind, hchdir, hrun]
  refine ⟨by rw [hrun'], by rw [hrun'], by rw [hrun'], ?_, by rw [hrun']⟩
  rw [hrun']
  show (rc == 0) = true ↔ rc = 0
  simp

/-- Witness for C8: the environment `envOk`. -/
theorem C8_completed_witness :
    (run_semgrep_scan envOk "/projects/app" none).res.output = "OUT" ++ "ERR" ∧
    (run_semgrep_scan envOk "/projects/app" none).res.command
      = some (pyJoin " " (buildCmd "/opt/homebrew/bin/semgrep"
          ((none : Option (List String)).getD defaultConfigs) "/projects/app")) ∧
    (run_semgrep_scan envOk "/projects/app" none).res.return_code = some 0 ∧
    ((run_semgrep_scan envOk "/projects/app" none).res.success = true ↔ (0 : Int) = 0) ∧
    (run_semgrep_scan envOk "/projects/app" none).cwdAfter = envOk.cwd :=
  C8_completed_result_fields envOk "/projects/app" "/opt/homebrew/bin/semgrep" "OUT" "ERR" 0
    none (by decide) rfl rfl

/-- C9: when the target path exists and the external tool exits 0, the
driver prints the summary line "⚠️ Security issues found!" exactly when the
combined output contains the substring `"results": [`, and otherwise prints
"🎉 No security issues found!"; the printed report is exactly the banner,
the command, the combined output, the success line, that conditional
summary, and the footer. -/
theorem C9_summary_iff_results_marker (env : Env) (sp out err : String)
    (hargc : 2 ≤ env.argv.length)
    (hex : env.pathExists (env.argv.getD 1 "") = true)
    (hfind : (find_system_semgrep env).1 = some sp)
    (hchdir : env.chdirFail (env.argv.getD 1 "") = none)
    (hrun : env.runProc (buildCmd sp defaultConfigs (env.argv.getD 1 "")) scan_timeout
      = RunOutcome.completed 0 out err) :
    (main_run env).1 = 0 ∧
    (main_run env).2.1 =
      ["🔍 Running Semgrep Security Scan", "================================", "",
       "Project: " ++ env.argv.getD 1 "", "Generated: " ++ pyStrip env.popenDate, "",
       "📋 Command Output:", "-----------------",
       "Command: " ++ pyJoin " " (buildCmd sp defaultConfigs (env.argv.getD 1 "")), "",
       out ++ err, "", "✅ Scan completed successfully"] ++
      (if containsStr (out ++ err) "\"results\": [" then
        ["⚠️ Security issues found!"]
      else
        ["🎉 No security issues found!"]) ++
      ["", sepLine,
       "End of Semgrep Scan Report", sepLine] := by
  have hmain : main_run env = mainBody env := by
    unfold main_run
    rw [if_neg (by omega), if_neg (by rw [hex]; simp)]
  have hscan : run_semgrep_scan env (env.argv.getD 1 "") none =
      ⟨⟨(0 : Int) == 0, out ++ err,
          some (pyJoin " " (buildCmd sp defaultConfigs (env.argv.getD 1 ""))),
          none, some 0⟩,
        env.cwd,
        (find_system_semgrep env).2 ++ [buildCmd sp defaultConfigs (env.argv.getD 1 "")]⟩ := by
    simp only [run_semgrep_scan, Option.getD, hfind, hchdir, hrun]
  have hne : pyJoin " " (buildCmd sp defaultConfigs (env.argv.getD 1 "")) ≠ "" := by
    have := pyJoin_ne_empty sp "scan"
      (defaultConfigs.map (fun c => "--config=" ++ c) ++
        ["--json", "--verbose", env.argv.getD 1 ""])
    simpa [buildCmd] using this
  constructor
  · rw [hmain]; rfl
  · rw [hmain]
    simp only [mainBody, hscan]
    have hbeq : ((0 : Int) == 0) = true := rfl
    rw [hbeq]
    rw [if_pos (bne_iff_ne.mpr hne)]
    simp

/-- Witness for C9: the environment `envFound`, whose tool exits 0 with a
results array in its stdout. -/
theorem C9_summary_witness :
    (main_run envFound).1 = 0 ∧
    (main_run envFound).2.1 =
      ["🔍 Running Semgrep Security Scan", "================================", "",
       "Project: " ++ envFound.argv.getD 1 "",
       "Generated: " ++ pyStrip envFound.popenDate, "",
       "📋 Command Output:", "-----------------",
       "Command: " ++ pyJoin " " (buildCmd "/opt/homebrew/bin/semgrep" defaultConfigs
         (envFound.argv.getD 1 "")), "",
       "\x7b \"results\": [ ] \x7d" ++ "", "", "✅ Scan completed successfully"] ++
      (if containsStr ("\x7b \"results\": [ ] \x7d" ++ "") "\"results\": [" then
        ["⚠️ Security issues found!"]
      else
        ["🎉 No security issues found!"]) ++
      ["", sepLine,
       "End of Semgrep Scan Report", sepLine] :=
  C9_summary_iff_results_marker envFound "/opt/homebrew/bin/semgrep"
    "\x7b \"results\": [ ] \x7d" "" (by decide) rfl (by decide) rfl rfl

/-- C10: with a target-path argument present, the driver exits with status 1
and spawns no subprocess when the path does not exist, and exits with
status 0 whenever the path exists, whatever the scan outcome. -/
theorem C10_exit_status (env : Env) (hargc : 2 ≤ env.argv.length) :
    (env.pathExists (env.argv.getD 1 "") = false →
      main_run env = (1, ["❌ Project path does not exist: " ++ env.argv.getD 1 ""], [])) ∧
    (env.pathExists (env.argv.getD 1 "") = true → (main_run env).1 = 0) := by
  constructor
  · intro h
    unfold main_run
    rw [if_neg (by omega), if_pos h]
  · intro h
    unfold main_run
    rw [if_neg (by omega), if_neg (by rw [h]; simp)]
    rfl

/-- Witness for C10: the environment `envMissing`, whose target path does
not exist. -/
theorem C10_exit_status_witness :
    (envMissing.pathExists (envMissing.argv.getD 1 "") = false →
      main_run envMissing
        = (1, ["❌ Project path does not exist: " ++ envMissing.argv.getD 1 ""], [])) ∧
    (envMissing.pathExists (envMissing.argv.getD 1 "") = true →
      (main_run envMissing).1 = 0) :=
  C10_exit_status envMissing (by decide)
